import Mathlib

/-!
Verification of the signal-generation and forward trade-simulation engine of
millitime (src/ml-service/generate_synthetic_data.py), shallowly embedded in
Lean 4.  Prices are modelled as exact rationals; float values that can be NaN
in pandas are modelled as `Option ℚ` (none = NaN), and the RSI pipeline, where
IEEE infinity matters, uses a dedicated value type `FVal`.
-/

/-! ## Data model -/

/-- One OHLCV candle, restricted to the fields the trade simulator reads
(`simulate_trades` only accesses `high`, `low`, `close`). -/
structure Candle where
  high : ℚ
  low : ℚ
  close : ℚ
deriving DecidableEq

/-- Fallback candle for total list access; every in-scope access in the
source (`df.iloc[i]` with `i` in a valid range) stays within bounds, so this
default is never reached by the theorems below. -/
def noCandle : Candle := { high := 0, low := 0, close := 0 }

/-- Direction of an emitted signal (`signal_type` in the source). -/
inductive SignalType where
  | BUY
  | SELL
deriving DecidableEq, BEq

/-- Terminal state of a simulated trade (`outcome` local / `exit_reason`
column in `simulate_trades`). -/
inductive ExitReason where
  | TP_HIT
  | SL_HIT
  | TIME_EXPIRED
deriving DecidableEq

/-- WIN/LOSS label (`outcome` column of the emitted row). -/
inductive Outcome where
  | WIN
  | LOSS
deriving DecidableEq

/-! ## Trade simulator (`SyntheticDataGenerator.simulate_trades`, lines 227-335) -/

/-- Stop-loss level, lines 244-249: BUY -> entry - atr*1.5, SELL -> entry + atr*1.5. -/
def stop_loss (st : SignalType) (entry atr : ℚ) : ℚ :=
  match st with
  | SignalType.BUY => entry - atr * (3/2)
  | SignalType.SELL => entry + atr * (3/2)

/-- Take-profit level, lines 244-249: BUY -> entry + atr*3.0, SELL -> entry - atr*3.0. -/
def take_profit (st : SignalType) (entry atr : ℚ) : ℚ :=
  match st with
  | SignalType.BUY => entry + atr * 3
  | SignalType.SELL => entry - atr * 3

/-- Does a bar breach the take-profit level (the condition of the first
`if` in the scan loop, lines 261 and 274)? -/
def tpBreach (st : SignalType) (tp : ℚ) (c : Candle) : Bool :=
  match st with
  | SignalType.BUY => decide (tp ≤ c.high)
  | SignalType.SELL => decide (c.low ≤ tp)

/-- Does a bar breach the stop-loss level (the condition of the second
`if` in the scan loop, lines 267 and 280)? -/
def slBreach (st : SignalType) (sl : ℚ) (c : Candle) : Bool :=
  match st with
  | SignalType.BUY => decide (c.low ≤ sl)
  | SignalType.SELL => decide (sl ≤ c.high)

/-- One iteration of the scan loop body (lines 259-284): the TP check runs
first, then the SL check; `none` means the bar triggers nothing. -/
def checkBar (st : SignalType) (tp sl : ℚ) (c : Candle) : Option (ExitReason × ℚ) :=
  match st with
  | SignalType.BUY =>
      if tp ≤ c.high then some (ExitReason.TP_HIT, tp)
      else if c.low ≤ sl then some (ExitReason.SL_HIT, sl)
      else none
  | SignalType.SELL =>
      if c.low ≤ tp then some (ExitReason.TP_HIT, tp)
      else if sl ≤ c.high then some (ExitReason.SL_HIT, sl)
      else none

/-- The forward scan `for i in range(start, start+fuel)` of lines 256-284
(`fuel` bars starting at bar `i`): returns the exit reason, exit price and
bar index of the first triggering bar, or `none` when no scanned bar
triggers.  Recursion is structural on `fuel` so that the definition reduces
in the kernel. -/
def scanRange (st : SignalType) (tp sl : ℚ) (df : List Candle) :
    Nat → Nat → Option (ExitReason × ℚ × Nat)
  | 0 => fun _ => none
  | fuel + 1 => fun i =>
      match checkBar st tp sl (df.getD i noCandle) with
      | some (r, p) => some (r, p, i)
      | none => scanRange st tp sl df fuel (i + 1)

/-- Result of simulating one signal: the source's locals `outcome`
(exit reason), `exit_price`, `exit_idx` plus the emitted row's
`pnl_percent` and WIN/LOSS `outcome` (lines 252-321). -/
structure TradeResult where
  exit_reason : ExitReason
  exit_price : ℚ
  exit_idx : Nat
  pnl_percent : ℚ
  outcome : Outcome
deriving DecidableEq

/-- The P/L computation of lines 291-294: BUY -> (exit-entry)/entry*100,
SELL -> (entry-exit)/entry*100. -/
def pnlCalc (st : SignalType) (entry exitPrice : ℚ) : ℚ :=
  match st with
  | SignalType.BUY => (exitPrice - entry) / entry * 100
  | SignalType.SELL => (entry - exitPrice) / entry * 100

/-- The per-signal body of `simulate_trades` (lines 236-321), after
destructuring the signal dict into `entry_idx`, `entry_price`, `atr` and
`signal_type`.  The scan covers `range(entry_idx+1, min(entry_idx+100,
len(df)))`; on no trigger the trade TIME_EXPIREs at the close of bar
`min(entry_idx+100, len(df)-1)`. -/
def simulate_trade (st : SignalType) (entry_idx : Nat) (entry atr : ℚ)
    (df : List Candle) : TradeResult :=
  let sl := stop_loss st entry atr
  let tp := take_profit st entry atr
  let scanEnd := min (entry_idx + 100) df.length
  let scanRes := scanRange st tp sl df (scanEnd - (entry_idx + 1)) (entry_idx + 1)
  let exit_price :=
    match scanRes with
    | some (_, p, _) => p
    | none => (df.getD (min (entry_idx + 100) (df.length - 1)) noCandle).close
  let exit_reason :=
    match scanRes with
    | some (r, _, _) => r
    | none => ExitReason.TIME_EXPIRED
  let exit_idx :=
    match scanRes with
    | some (_, _, j) => j
    | none => min (entry_idx + 100) (df.length - 1)
  let pnl := pnlCalc st entry exit_price
  { exit_reason := exit_reason
    exit_price := exit_price
    exit_idx := exit_idx
    pnl_percent := pnl
    outcome := if pnl > 1/2 then Outcome.WIN else Outcome.LOSS }

/-! ## Signal generator (`SyntheticDataGenerator.generate_signals`, lines 154-225)

Indicator values are pandas float64 cells that may be NaN; a cell is
modelled as `Option ℚ` with `none` for NaN.  A comparison against NaN is
false in Python, which the helpers `oLT` and `oGT` encode. -/

/-- One indicator-augmented row, restricted to the columns that
`generate_signals` reads.  (The source frame also carries open, high, low,
volume, macd_signal, bb_upper, bb_lower, sma_20, volume_sma and
range_position, which `generate_signals` never reads.)  `volume_rel` is the
source's volume-SMA quotient column. -/
structure IndicatorRow where
  timestamp : Nat
  close : ℚ
  rsi : Option ℚ
  macd : Option ℚ
  macd_histogram : Option ℚ
  ema_9 : Option ℚ
  ema_21 : Option ℚ
  ema_50 : Option ℚ
  bb_width : Option ℚ
  price_to_bb : Option ℚ
  atr : Option ℚ
  volume_rel : Option ℚ
  price_momentum : Option ℚ
deriving DecidableEq

/-- Python `x < c` where `x` may be NaN: false for NaN. -/
def oLT (x : Option ℚ) (c : ℚ) : Bool :=
  match x with
  | none => false
  | some v => decide (v < c)

/-- Python `x > c` where `x` may be NaN: false for NaN. -/
def oGT (x : Option ℚ) (c : ℚ) : Bool :=
  match x with
  | none => false
  | some v => decide (c < v)

/-- Python chained `a > b > c` where any operand may be NaN. -/
def oChain (a b c : Option ℚ) : Bool :=
  match a, b, c with
  | some x, some y, some z => decide (y < x) && decide (z < y)
  | _, _, _ => false

/-- The RSI rule, lines 175-180: the sole origin of `signal_type`. -/
def rsiSignalType (row : IndicatorRow) : Option SignalType :=
  if oLT row.rsi 30 then some SignalType.BUY
  else if oGT row.rsi 70 then some SignalType.SELL
  else none

/-- Confluence contributed by the RSI rule (+20 when it sets a type). -/
def rsiBonus (row : IndicatorRow) : Nat :=
  if oLT row.rsi 30 then 20
  else if oGT row.rsi 70 then 20
  else 0

/-- MACD-histogram rule, lines 183-186. -/
def macdBonus (row : IndicatorRow) (st : Option SignalType) : Nat :=
  if oGT row.macd_histogram 0 && (st == some SignalType.BUY) then 15
  else if oLT row.macd_histogram 0 && (st == some SignalType.SELL) then 15
  else 0

/-- EMA-alignment rule, lines 189-192. -/
def emaBonus (row : IndicatorRow) (st : Option SignalType) : Nat :=
  if oChain row.ema_9 row.ema_21 row.ema_50 && (st == some SignalType.BUY) then 15
  else if oChain row.ema_50 row.ema_21 row.ema_9 && (st == some SignalType.SELL) then 15
  else 0

/-- Bollinger-position rule, lines 195-198 (reads `price_to_bb`). -/
def bbBonus (row : IndicatorRow) (st : Option SignalType) : Nat :=
  if oLT row.price_to_bb (2/10) && (st == some SignalType.BUY) then 10
  else if oGT row.price_to_bb (8/10) && (st == some SignalType.SELL) then 10
  else 0

/-- Volume-confirmation rule, lines 201-202 (independent of the type). -/
def volBonus (row : IndicatorRow) : Nat :=
  if oGT row.volume_rel (12/10) then 10 else 0

/-- Cumulative confluence of a bar, the value of the source's `confluence`
accumulator after all five rule blocks (lines 171-202). -/
def confluenceOf (row : IndicatorRow) : Nat :=
  rsiBonus row + macdBonus row (rsiSignalType row) + emaBonus row (rsiSignalType row) +
    bbBonus row (rsiSignalType row) + volBonus row

/-- An emitted Signal, lines 206-222: bar index, timestamp, direction,
confluence, entry price (the bar's close) and the stored indicator
snapshot.  Note the snapshot does not include `price_to_bb`. -/
structure Signal where
  index : Nat
  timestamp : Nat
  signal_type : SignalType
  confluence : Nat
  entry_price : ℚ
  rsi : Option ℚ
  macd : Option ℚ
  macd_histogram : Option ℚ
  ema_9 : Option ℚ
  ema_21 : Option ℚ
  ema_50 : Option ℚ
  bb_width : Option ℚ
  atr : Option ℚ
  volume_rel : Option ℚ
  price_momentum : Option ℚ
deriving DecidableEq

/-- The dict built at lines 206-222 for an emitting bar. -/
def signalOfRow (i : Nat) (row : IndicatorRow) (st : SignalType) (conf : Nat) : Signal :=
  { index := i
    timestamp := row.timestamp
    signal_type := st
    confluence := conf
    entry_price := row.close
    rsi := row.rsi
    macd := row.macd
    macd_histogram := row.macd_histogram
    ema_9 := row.ema_9
    ema_21 := row.ema_21
    ema_50 := row.ema_50
    bb_width := row.bb_width
    atr := row.atr
    volume_rel := row.volume_rel
    price_momentum := row.price_momentum }

/-- The body of the `for i in range(100, len(df))` loop of
`generate_signals` for one index: `none` when the bar is skipped or fails
the `confluence >= 50 and signal_type` gate of line 205. -/
def sigGuard (df : List IndicatorRow) (i : Nat) : Option Signal :=
  match df[i]? with
  | none => none
  | some row =>
      if i < 100 then none
      else if row.rsi.isNone || row.macd.isNone then none
      else
        match rsiSignalType row with
        | none => none
        | some st =>
            if 50 ≤ confluenceOf row then some (signalOfRow i row st (confluenceOf row))
            else none

/-- `generate_signals`, lines 154-225: the emitted signals in bar order. -/
def generate_signals (df : List IndicatorRow) : List Signal :=
  (List.range df.length).filterMap (sigGuard df)

/-- Modelled from the spec: the recompute property of §4.2/§8 re-applies the
confluence rules to "the indicator values stored in that Signal's snapshot".
This rebuilds an indicator row from the snapshot; `price_to_bb` is not
stored in a Signal, so that cell is not available (NaN) to the
recomputation. -/
def rowOfSnapshot (s : Signal) : IndicatorRow :=
  { timestamp := s.timestamp
    close := s.entry_price
    rsi := s.rsi
    macd := s.macd
    macd_histogram := s.macd_histogram
    ema_9 := s.ema_9
    ema_21 := s.ema_21
    ema_50 := s.ema_50
    bb_width := s.bb_width
    price_to_bb := none
    atr := s.atr
    volume_rel := s.volume_rel
    price_momentum := s.price_momentum }

/-- Modelled from the spec: `recompute(signal)` of §8 — §4.2's scoring
re-applied to the stored snapshot. -/
def recomputeConfluence (s : Signal) : Nat :=
  confluenceOf (rowOfSnapshot s)

/-! ## RSI computation (`SyntheticDataGenerator.calculate_indicators`, lines 103-108)

The RSI cells are IEEE float64; here a cell is a rational, NaN, or a signed
infinity (the only non-finite values the pipeline can produce), with exact
arithmetic standing in for rounded float arithmetic. -/

/-- Value of a float64 cell in the RSI pipeline. -/
inductive FVal where
  | nan
  | inf
  | neginf
  | val (q : ℚ)
deriving DecidableEq

/-- `delta = df['close'].diff()`: NaN at row 0, else the close change. -/
def deltaAt (close : List ℚ) (i : Nat) : Option ℚ :=
  if i = 0 then none else some (close.getD i 0 - close.getD (i - 1) 0)

/-- `delta.where(delta > 0, 0)`: pandas `where` replaces every cell whose
condition is false with 0, and `NaN > 0` is false, so the NaN delta of row 0
becomes a 0 gain (not NaN). -/
def gainAt (close : List ℚ) (i : Nat) : ℚ :=
  match deltaAt close i with
  | none => 0
  | some d => if 0 < d then d else 0

/-- `-delta.where(delta < 0, 0)`: as for `gainAt`, row 0's NaN becomes 0. -/
def lossAt (close : List ℚ) (i : Nat) : ℚ :=
  match deltaAt close i with
  | none => 0
  | some d => if d < 0 then -d else 0

/-- `.rolling(window=14).mean()` on the gain column: NaN (`none`) until the
window holds 14 cells, i.e. for row index below 13; all cells of the gain
column are non-NaN, so from row 13 on the mean is defined. -/
def avgGain (close : List ℚ) (i : Nat) : Option ℚ :=
  if 13 ≤ i then
    some ((((List.range 14).map fun k => gainAt close (i - 13 + k)).sum) / 14)
  else none

/-- `.rolling(window=14).mean()` on the loss column. -/
def avgLoss (close : List ℚ) (i : Nat) : Option ℚ :=
  if 13 ≤ i then
    some ((((List.range 14).map fun k => lossAt close (i - 13 + k)).sum) / 14)
  else none

/-- `rs = gain / loss` under IEEE semantics: NaN if either operand is NaN;
for a zero divisor, 0/0 is NaN and g/0 is a signed infinity. -/
def rsAt (close : List ℚ) (i : Nat) : FVal :=
  match avgGain close i, avgLoss close i with
  | some g, some l =>
      if l = 0 then
        if 0 < g then FVal.inf
        else if g < 0 then FVal.neginf
        else FVal.nan
      else FVal.val (g / l)
  | _, _ => FVal.nan

/-- `rsi = 100 - (100 / (1 + rs))` under IEEE semantics:
NaN propagates; `1 + inf = inf` and `100/inf = 0` give 100;
`1 + (-inf) = -inf` and `100/(-inf) = -0` give 100;
for finite `rs = -1` the divisor is 0 and `100/0 = +inf` gives `-inf`. -/
def rsiAt (close : List ℚ) (i : Nat) : FVal :=
  match rsAt close i with
  | FVal.nan => FVal.nan
  | FVal.inf => FVal.val 100
  | FVal.neginf => FVal.val 100
  | FVal.val r =>
      if 1 + r = 0 then FVal.neginf
      else FVal.val (100 - 100 / (1 + r))

/-! ## Dataset aggregator (`SyntheticDataGenerator.generate_dataset`, lines 337-388)

The per-coin `try` body (fetch OHLCV, compute indicators, generate signals,
simulate trades, tag rows with the coin) is abstracted as a parameter
`process`; its only realistic failure source, the network fetch, is outside
this repository, and the `except` clause catches any exception the body
raises.  The aggregator logic itself — catch-and-continue per coin, the
final emptiness check, and the concatenation — is translated from the
source. -/

/-- `generate_dataset`: runs `process` per coin, skips failing coins
(lines 369-371), raises "No training data generated!" when no coin
succeeded (lines 374-375), otherwise concatenates all per-coin row lists
tagged with their coin (lines 365, 377). -/
def generate_dataset (process : String → Except String (List TradeResult))
    (coins : List String) : Except String (List (String × TradeResult)) :=
  let all_trades := coins.filterMap fun coin =>
    match process coin with
    | Except.ok trades => some (trades.map fun t => (coin, t))
    | Except.error _ => none
  if all_trades.isEmpty then Except.error ("No training data generated!")
  else Except.ok all_trades.flatten

/-! ## Concrete inputs for witnesses and counterexamples -/

/-- A flat bar at price 100 that triggers nothing for entry 100 with a
moderate ATR. -/
def flatBar : Candle := { high := 100, low := 100, close := 100 }

/-- Forward window whose first scanned bar breaches both TP (106) and SL
(97) for a BUY at entry 100 with ATR 2. -/
def exDf1 : List Candle := [flatBar, { high := 110, low := 90, close := 100 }]

/-- 102-bar series for a signal at index 0 (entry 100, ATR 2, BUY): bars
1-99 are flat, bar 100 — the 100th bar after the signal — spikes through
the TP of 106, bar 101 is flat again. -/
def exDf2 : List Candle :=
  flatBar :: List.replicate 99 flatBar ++
    [{ high := 200, low := 100, close := 100 }, flatBar]

/-- Two-bar series triggering nothing for entry 100 with ATR 10. -/
def exDf3 : List Candle := [flatBar, { high := 101, low := 99, close := 103 }]

/-- Two-bar series for entry 100, ATR 1 (TP 103, SL 98.5): no trigger, and
the trade expires at close 100.3, a P/L of 0.3% — positive but below the
0.5 WIN threshold. -/
def exDf4 : List Candle :=
  [flatBar, { high := 1003/10, low := 100, close := 1003/10 }]

/-- Two-bar series whose second bar touches exactly the BUY TP of 106 for
entry 100, ATR 2. -/
def exDf5 : List Candle := [flatBar, { high := 106, low := 100, close := 104 }]

/-- Two-bar series (entry 600, ATR 1, BUY: TP 603) whose second bar hits
TP; the resulting P/L is 300·1/600 = 0.5, not above the WIN threshold. -/
def exDf10 : List Candle :=
  [{ high := 600, low := 600, close := 600 }, { high := 603, low := 600, close := 600 }]

/-- A warm-up row with NaN RSI and MACD: always skipped by the signal
generator. -/
def blankRow : IndicatorRow :=
  { timestamp := 0, close := 0, rsi := none, macd := none, macd_histogram := none,
    ema_9 := none, ema_21 := none, ema_50 := none, bb_width := none,
    price_to_bb := none, atr := none, volume_rel := none, price_momentum := none }

/-- A bar scoring exactly 50 (RSI 25 → BUY +20, histogram +15, EMA
alignment +15), with no Bollinger or volume contribution. -/
def row6 : IndicatorRow :=
  { timestamp := 7, close := 100, rsi := some 25, macd := some 1,
    macd_histogram := some 1, ema_9 := some 3, ema_21 := some 2, ema_50 := some 1,
    bb_width := some 1, price_to_bb := some (1/2), atr := some 5,
    volume_rel := some 1, price_momentum := some 0 }

/-- 101-row series whose only emitting bar is index 100 (scoring 50). -/
def exDfSig6 : List IndicatorRow := List.replicate 100 blankRow ++ [row6]

/-- The signal emitted by `exDfSig6`. -/
def exSig6 : Signal := signalOfRow 100 row6 SignalType.BUY 50

/-- A bar scoring 55 with a +10 Bollinger contribution (RSI 25 → BUY +20,
histogram +15, price_to_bb 0.1 → +10, volume 2 → +10, no EMA alignment). -/
def row7 : IndicatorRow :=
  { timestamp := 9, close := 100, rsi := some 25, macd := some 1,
    macd_histogram := some 1, ema_9 := some 1, ema_21 := some 2, ema_50 := some 3,
    bb_width := some 1, price_to_bb := some (1/10), atr := some 5,
    volume_rel := some 2, price_momentum := some 0 }

/-- 101-row series whose only emitting bar is index 100 (scoring 55 with a
Bollinger contribution). -/
def exDfSig7 : List IndicatorRow := List.replicate 100 blankRow ++ [row7]

/-- The signal emitted by `exDfSig7`. -/
def exSig7 : Signal := signalOfRow 100 row7 SignalType.BUY 55

/-- A strictly increasing 14-bar close series: every delta is a gain, so
the trailing average loss at row 13 is 0 while the average gain is
positive. -/
def exCl8 : List ℚ := [0, 1, 2, 3, 4, 5, 6, 7, 8, 9, 10, 11, 12, 13]

/-- A per-coin process where exactly coin "B" fails. -/
def exProcess : String → Except String (List TradeResult) := fun coin =>
  if coin = "B" then Except.error ("fetch failed") else Except.ok []

/-- A per-coin process where every coin fails. -/
def exProcessFail : String → Except String (List TradeResult) := fun _ =>
  Except.error ("fetch failed")

/-! ## Helper lemmas about the forward scan -/

theorem checkBar_of_tpBreach (st : SignalType) (tp sl : ℚ) (c : Candle)
    (h : tpBreach st tp c = true) :
    checkBar st tp sl c = some (ExitReason.TP_HIT, tp) := by
  cases st <;> simp [tpBreach, decide_eq_true_eq] at h <;> simp [checkBar, h]

theorem checkBar_tp_price (st : SignalType) (tp sl : ℚ) (c : Candle) (p : ℚ)
    (h : checkBar st tp sl c = some (ExitReason.TP_HIT, p)) : p = tp := by
  cases st with
  | BUY =>
      simp only [checkBar] at h
      by_cases h1 : tp ≤ c.high
      · rw [if_pos h1] at h
        simp only [Option.some.injEq, Prod.mk.injEq] at h
        exact h.2.symm
      · rw [if_neg h1] at h
        by_cases h2 : c.low ≤ sl
        · rw [if_pos h2] at h
          simp at h
        · rw [if_neg h2] at h
          cases h
  | SELL =>
      simp only [checkBar] at h
      by_cases h1 : c.low ≤ tp
      · rw [if_pos h1] at h
        simp only [Option.some.injEq, Prod.mk.injEq] at h
        exact h.2.symm
      · rw [if_neg h1] at h
        by_cases h2 : sl ≤ c.high
        · rw [if_pos h2] at h
          simp at h
        · rw [if_neg h2] at h
          cases h

theorem checkBar_sl_price (st : SignalType) (tp sl : ℚ) (c : Candle) (p : ℚ)
    (h : checkBar st tp sl c = some (ExitReason.SL_HIT, p)) : p = sl := by
  cases st with
  | BUY =>
      simp only [checkBar] at h
      by_cases h1 : tp ≤ c.high
      · rw [if_pos h1] at h
        simp at h
      · rw [if_neg h1] at h
        by_cases h2 : c.low ≤ sl
        · rw [if_pos h2] at h
          simp only [Option.some.injEq, Prod.mk.injEq] at h
          exact h.2.symm
        · rw [if_neg h2] at h
          cases h
  | SELL =>
      simp only [checkBar] at h
      by_cases h1 : c.low ≤ tp
      · rw [if_pos h1] at h
        simp at h
      · rw [if_neg h1] at h
        by_cases h2 : sl ≤ c.high
        · rw [if_pos h2] at h
          simp only [Option.some.injEq, Prod.mk.injEq] at h
          exact h.2.symm
        · rw [if_neg h2] at h
          cases h

theorem checkBar_none_of_no_breach (st : SignalType) (tp sl : ℚ) (c : Candle)
    (h1 : tpBreach st tp c = false) (h2 : slBreach st sl c = false) :
    checkBar st tp sl c = none := by
  cases st with
  | BUY =>
      simp only [tpBreach, decide_eq_false_iff_not] at h1
      simp only [slBreach, decide_eq_false_iff_not] at h2
      simp only [checkBar]
      rw [if_neg h1, if_neg h2]
  | SELL =>
      simp only [tpBreach, decide_eq_false_iff_not] at h1
      simp only [slBreach, decide_eq_false_iff_not] at h2
      simp only [checkBar]
      rw [if_neg h1, if_neg h2]

theorem scanRange_eq_none (st : SignalType) (tp sl : ℚ) (df : List Candle) :
    ∀ fuel start,
      (∀ j, start ≤ j → j < start + fuel → checkBar st tp sl (df.getD j noCandle) = none) →
      scanRange st tp sl df fuel start = none := by
  intro fuel
  induction fuel with
  | zero => intro start _; rfl
  | succ n ih =>
      intro start h
      have h0 : checkBar st tp sl (df.getD start noCandle) = none :=
        h start le_rfl (by omega)
      simp only [scanRange]
      rw [h0]
      exact ih (start + 1) fun j hj1 hj2 => h j (by omega) (by omega)

theorem scanRange_first_hit (st : SignalType) (tp sl : ℚ) (df : List Candle) :
    ∀ fuel start j r p, start ≤ j → j < start + fuel →
      (∀ k, start ≤ k → k < j → checkBar st tp sl (df.getD k noCandle) = none) →
      checkBar st tp sl (df.getD j noCandle) = some (r, p) →
      scanRange st tp sl df fuel start = some (r, p, j) := by
  intro fuel
  induction fuel with
  | zero => intro start j r p h1 h2 _ _; exact absurd h2 (by omega)
  | succ n ih =>
      intro start j r p h1 h2 hprev hhit
      by_cases hj : start = j
      · subst hj
        simp only [scanRange]
        rw [hhit]
      · have hlt : start < j := lt_of_le_of_ne h1 hj
        have h0 : checkBar st tp sl (df.getD start noCandle) = none :=
          hprev start le_rfl hlt
        simp only [scanRange]
        rw [h0]
        exact ih (start + 1) j r p (by omega) (by omega)
          (fun k hk1 hk2 => hprev k (by omega) hk2) hhit

theorem scanRange_some_checkBar (st : SignalType) (tp sl : ℚ) (df : List Candle) :
    ∀ fuel start r p j, scanRange st tp sl df fuel start = some (r, p, j) →
      checkBar st tp sl (df.getD j noCandle) = some (r, p) := by
  intro fuel
  induction fuel with
  | zero => intro start r p j h; cases h
  | succ n ih =>
      intro start r p j h
      simp only [scanRange] at h
      cases hcb : checkBar st tp sl (df.getD start noCandle) with
      | some rp =>
          obtain ⟨r0, p0⟩ := rp
          rw [hcb] at h
          simp only [Option.some.injEq, Prod.mk.injEq] at h
          obtain ⟨hr, hp, hj⟩ := h
          subst hr; subst hp; subst hj
          exact hcb
      | none =>
          rw [hcb] at h
          exact ih (start + 1) r p j h

/-! ## Helper lemmas about `simulate_trade` -/

theorem simulate_scan_some (st : SignalType) (entry_idx : Nat) (entry atr : ℚ)
    (df : List Candle) (r : ExitReason) (p : ℚ) (j : Nat)
    (h : scanRange st (take_profit st entry atr) (stop_loss st entry atr) df
        (min (entry_idx + 100) df.length - (entry_idx + 1)) (entry_idx + 1) =
        some (r, p, j)) :
    (simulate_trade st entry_idx entry atr df).exit_reason = r ∧
    (simulate_trade st entry_idx entry atr df).exit_price = p := by
  simp only [simulate_trade]
  rw [h]
  exact ⟨rfl, rfl⟩

theorem simulate_scan_none (st : SignalType) (entry_idx : Nat) (entry atr : ℚ)
    (df : List Candle)
    (h : scanRange st (take_profit st entry atr) (stop_loss st entry atr) df
        (min (entry_idx + 100) df.length - (entry_idx + 1)) (entry_idx + 1) = none) :
    (simulate_trade st entry_idx entry atr df).exit_reason = ExitReason.TIME_EXPIRED ∧
    (simulate_trade st entry_idx entry atr df).exit_price =
      (df.getD (min (entry_idx + 100) (df.length - 1)) noCandle).close := by
  simp only [simulate_trade]
  rw [h]
  exact ⟨rfl, rfl⟩

theorem simulate_pnl_eq (st : SignalType) (entry_idx : Nat) (entry atr : ℚ)
    (df : List Candle) :
    (simulate_trade st entry_idx entry atr df).pnl_percent =
      pnlCalc st entry (simulate_trade st entry_idx entry atr df).exit_price := rfl

theorem simulate_outcome_eq (st : SignalType) (entry_idx : Nat) (entry atr : ℚ)
    (df : List Candle) :
    (simulate_trade st entry_idx entry atr df).outcome =
      if 1/2 < (simulate_trade st entry_idx entry atr df).pnl_percent then Outcome.WIN
      else Outcome.LOSS := rfl

theorem exit_price_of_reason (st : SignalType) (entry_idx : Nat) (entry atr : ℚ)
    (df : List Candle) :
    ((simulate_trade st entry_idx entry atr df).exit_reason = ExitReason.TP_HIT →
      (simulate_trade st entry_idx entry atr df).exit_price = take_profit st entry atr) ∧
    ((simulate_trade st entry_idx entry atr df).exit_reason = ExitReason.SL_HIT →
      (simulate_trade st entry_idx entry atr df).exit_price = stop_loss st entry atr) := by
  cases hscan : scanRange st (take_profit st entry atr) (stop_loss st entry atr) df
      (min (entry_idx + 100) df.length - (entry_idx + 1)) (entry_idx + 1) with
  | none =>
      obtain ⟨hr, _⟩ := simulate_scan_none st entry_idx entry atr df hscan
      rw [hr]
      constructor <;> intro h <;> cases h
  | some rpj =>
      obtain ⟨r, p, j⟩ := rpj
      obtain ⟨hr, hp⟩ := simulate_scan_some st entry_idx entry atr df r p j hscan
      have hcb := scanRange_some_checkBar st (take_profit st entry atr)
        (stop_loss st entry atr) df _ _ r p j hscan
      rw [hr, hp]
      constructor
      · intro h
        subst h
        exact checkBar_tp_price st (take_profit st entry atr) (stop_loss st entry atr) _ p hcb
      · intro h
        subst h
        exact checkBar_sl_price st (take_profit st entry atr) (stop_loss st entry atr) _ p hcb

/-! ## Claim theorems: trade simulator -/

/-- C1: on every scanned bar the trade simulator checks the take-profit
condition before the stop-loss condition, so when the first triggering bar
of the forward scan breaches both TP and SL simultaneously (for BUY: high
past TP and low past SL; mirrored for SELL via low/high), the trade
transitions to TP_HIT with exit_price = TP. -/
theorem tp_priority (st : SignalType) (entry_idx : Nat) (entry atr : ℚ)
    (df : List Candle) (i : Nat)
    (hi1 : entry_idx + 1 ≤ i) (hi2 : i < min (entry_idx + 100) df.length)
    (hprev : ∀ j, entry_idx + 1 ≤ j → j < i →
      checkBar st (take_profit st entry atr) (stop_loss st entry atr)
        (df.getD j noCandle) = none)
    (htp : tpBreach st (take_profit st entry atr) (df.getD i noCandle) = true)
    (_hsl : slBreach st (stop_loss st entry atr) (df.getD i noCandle) = true) :
    checkBar st (take_profit st entry atr) (stop_loss st entry atr) (df.getD i noCandle) =
      some (ExitReason.TP_HIT, take_profit st entry atr) ∧
    (simulate_trade st entry_idx entry atr df).exit_reason = ExitReason.TP_HIT ∧
    (simulate_trade st entry_idx entry atr df).exit_price = take_profit st entry atr := by
  have hcb := checkBar_of_tpBreach st (take_profit st entry atr) (stop_loss st entry atr)
    (df.getD i noCandle) htp
  refine ⟨hcb, ?_⟩
  have hscan := scanRange_first_hit st (take_profit st entry atr) (stop_loss st entry atr)
    df (min (entry_idx + 100) df.length - (entry_idx + 1)) (entry_idx + 1) i
    ExitReason.TP_HIT (take_profit st entry atr) hi1 (by omega) hprev hcb
  exact simulate_scan_some st entry_idx entry atr df ExitReason.TP_HIT
    (take_profit st entry atr) i hscan

/-- C1 witness: a BUY at entry 100, ATR 2, whose first scanned bar has
high 110 ≥ TP = 106 and low 90 ≤ SL = 97, exits TP_HIT at 106. -/
theorem tp_priority_witness :
    checkBar SignalType.BUY (take_profit SignalType.BUY 100 2) (stop_loss SignalType.BUY 100 2)
      (exDf1.getD 1 noCandle) = some (ExitReason.TP_HIT, take_profit SignalType.BUY 100 2) ∧
    (simulate_trade SignalType.BUY 0 100 2 exDf1).exit_reason = ExitReason.TP_HIT ∧
    (simulate_trade SignalType.BUY 0 100 2 exDf1).exit_price =
      take_profit SignalType.BUY 100 2 :=
  tp_priority SignalType.BUY 0 100 2 exDf1 1 (by omega)
    (by with_unfolding_all decide)
    (fun j hj1 hj2 => absurd (Nat.lt_of_le_of_lt hj1 hj2) (Nat.lt_irrefl 1))
    (by with_unfolding_all decide) (by with_unfolding_all decide)

/-- C2 counterexample: the scan loop `range(entry_idx+1, min(entry_idx+100,
len(df)))` stops after bar signal_index+99, so on a 102-bar series whose
only TP breach is at bar signal_index+100 the trade is TIME_EXPIRED, not
TP_HIT — refuting that a TP breach on any of the 100 bars following the
signal bar yields TP_HIT. -/
theorem scan_window_counterexample :
    exDf2.length = 102 ∧
    tpBreach SignalType.BUY (take_profit SignalType.BUY 100 2) (exDf2.getD 100 noCandle) = true ∧
    (∀ j, 1 ≤ j → j ≤ 99 →
      checkBar SignalType.BUY (take_profit SignalType.BUY 100 2)
        (stop_loss SignalType.BUY 100 2) (exDf2.getD j noCandle) = none) ∧
    (simulate_trade SignalType.BUY 0 100 2 exDf2).exit_reason = ExitReason.TIME_EXPIRED := by
  refine ⟨by decide, by with_unfolding_all decide, ?_, by with_unfolding_all decide⟩
  intro j h1 h2
  interval_cases j <;> with_unfolding_all decide

/-- C2 amended: the forward scan starts at bar signal_index+1 and covers at
most 99 bars (indices signal_index+1 .. signal_index+99) or until the
series ends; a TP breach on a scanned bar not preceded by any earlier
triggering scanned bar yields exit_reason TP_HIT. -/
theorem scan_window_amended (st : SignalType) (entry_idx : Nat) (entry atr : ℚ)
    (df : List Candle) (i : Nat)
    (hi1 : entry_idx + 1 ≤ i) (hi99 : i ≤ entry_idx + 99) (hilen : i < df.length)
    (hprev : ∀ j, entry_idx + 1 ≤ j → j < i →
      checkBar st (take_profit st entry atr) (stop_loss st entry atr)
        (df.getD j noCandle) = none)
    (htp : tpBreach st (take_profit st entry atr) (df.getD i noCandle) = true) :
    (simulate_trade st entry_idx entry atr df).exit_reason = ExitReason.TP_HIT := by
  have hcb := checkBar_of_tpBreach st (take_profit st entry atr) (stop_loss st entry atr)
    (df.getD i noCandle) htp
  have hscan := scanRange_first_hit st (take_profit st entry atr) (stop_loss st entry atr)
    df (min (entry_idx + 100) df.length - (entry_idx + 1)) (entry_idx + 1) i
    ExitReason.TP_HIT (take_profit st entry atr) hi1 (by omega) hprev hcb
  exact (simulate_scan_some st entry_idx entry atr df ExitReason.TP_HIT
    (take_profit st entry atr) i hscan).1

/-- C2 witness: a BUY at entry 100, ATR 2, with a TP breach on the first
scanned bar, exits TP_HIT. -/
theorem scan_window_amended_witness :
    (simulate_trade SignalType.BUY 0 100 2 exDf5).exit_reason = ExitReason.TP_HIT :=
  scan_window_amended SignalType.BUY 0 100 2 exDf5 1 (by omega) (by omega) (by decide)
    (fun j hj1 hj2 => absurd (Nat.lt_of_le_of_lt hj1 hj2) (Nat.lt_irrefl 1))
    (by with_unfolding_all decide)

/-- C3: when no TP or SL condition fires on any scanned bar, the trade has
exit_reason TIME_EXPIRED and exit_price equal to the close of the bar at
index min(signal_index+100, N-1). -/
theorem time_expired_exit (st : SignalType) (entry_idx : Nat) (entry atr : ℚ)
    (df : List Candle) (hlen : entry_idx < df.length)
    (hno : ∀ i, entry_idx + 1 ≤ i → i < min (entry_idx + 100) df.length →
      tpBreach st (take_profit st entry atr) (df.getD i noCandle) = false ∧
      slBreach st (stop_loss st entry atr) (df.getD i noCandle) = false) :
    (simulate_trade st entry_idx entry atr df).exit_reason = ExitReason.TIME_EXPIRED ∧
    (simulate_trade st entry_idx entry atr df).exit_price =
      (df.getD (min (entry_idx + 100) (df.length - 1)) noCandle).close := by
  have hscan := scanRange_eq_none st (take_profit st entry atr) (stop_loss st entry atr) df
    (min (entry_idx + 100) df.length - (entry_idx + 1)) (entry_idx + 1)
    (fun j hj1 hj2 => by
      obtain ⟨a, b⟩ := hno j hj1 (by omega)
      exact checkBar_none_of_no_breach st (take_profit st entry atr)
        (stop_loss st entry atr) (df.getD j noCandle) a b)
  exact simulate_scan_none st entry_idx entry atr df hscan

/-- C3 witness: a BUY at entry 100, ATR 10, over a 2-bar series that never
touches TP = 130 or SL = 85 expires at the close of bar min(100, 1) = 1. -/
theorem time_expired_exit_witness :
    (simulate_trade SignalType.BUY 0 100 10 exDf3).exit_reason = ExitReason.TIME_EXPIRED ∧
    (simulate_trade SignalType.BUY 0 100 10 exDf3).exit_price =
      (exDf3.getD (min (0 + 100) (exDf3.length - 1)) noCandle).close :=
  time_expired_exit SignalType.BUY 0 100 10 exDf3 (by decide)
    (fun i h1 h2 => by
      have hlen : exDf3.length = 2 := by decide
      have hi : i = 1 := by omega
      subst hi
      exact ⟨by with_unfolding_all decide, by with_unfolding_all decide⟩)

/-- C4: the outcome label is WIN exactly when pnl_percent > 0.5, and a
trade whose pnl_percent lies strictly between 0 and 0.5 is labeled LOSS. -/
theorem outcome_threshold (st : SignalType) (entry_idx : Nat) (entry atr : ℚ)
    (df : List Candle) :
    ((simulate_trade st entry_idx entry atr df).outcome = Outcome.WIN ↔
      1/2 < (simulate_trade st entry_idx entry atr df).pnl_percent) ∧
    (0 < (simulate_trade st entry_idx entry atr df).pnl_percent →
      (simulate_trade st entry_idx entry atr df).pnl_percent < 1/2 →
      (simulate_trade st entry_idx entry atr df).outcome = Outcome.LOSS) := by
  constructor
  · rw [simulate_outcome_eq st entry_idx entry atr df]
    by_cases h : 1/2 < (simulate_trade st entry_idx entry atr df).pnl_percent
    · rw [if_pos h]
      exact iff_of_true rfl h
    · rw [if_neg h]
      exact iff_of_false (fun hEq => Outcome.noConfusion hEq) h
  · intro h1 h2
    rw [simulate_outcome_eq st entry_idx entry atr df, if_neg (by linarith)]

/-- C4 witness: a trade expiring at close 100.3 from entry 100 has
pnl_percent 0.3 ∈ (0, 0.5) and is labeled LOSS. -/
theorem outcome_threshold_witness :
    0 < (simulate_trade SignalType.BUY 0 100 1 exDf4).pnl_percent ∧
    (simulate_trade SignalType.BUY 0 100 1 exDf4).pnl_percent < 1/2 ∧
    (simulate_trade SignalType.BUY 0 100 1 exDf4).outcome = Outcome.LOSS :=
  ⟨by with_unfolding_all decide, by with_unfolding_all decide,
    (outcome_threshold SignalType.BUY 0 100 1 exDf4).2
      (by with_unfolding_all decide) (by with_unfolding_all decide)⟩

/-- C5: stop-loss and take-profit are computed from the signal's ATR as
BUY → SL = entry − 1.5·ATR, TP = entry + 3·ATR and SELL → SL = entry +
1.5·ATR, TP = entry − 3·ATR; accordingly every TP_HIT trade exits at the TP
level and every SL_HIT trade at the SL level. -/
theorem sl_tp_levels (entry atr : ℚ) (entry_idx : Nat) (df : List Candle) :
    stop_loss SignalType.BUY entry atr = entry - 3/2 * atr ∧
    take_profit SignalType.BUY entry atr = entry + 3 * atr ∧
    stop_loss SignalType.SELL entry atr = entry + 3/2 * atr ∧
    take_profit SignalType.SELL entry atr = entry - 3 * atr ∧
    (∀ st : SignalType,
      ((simulate_trade st entry_idx entry atr df).exit_reason = ExitReason.TP_HIT →
        (simulate_trade st entry_idx entry atr df).exit_price = take_profit st entry atr) ∧
      ((simulate_trade st entry_idx entry atr df).exit_reason = ExitReason.SL_HIT →
        (simulate_trade st entry_idx entry atr df).exit_price = stop_loss st entry atr)) := by
  refine ⟨?_, ?_, ?_, ?_, fun st => exit_price_of_reason st entry_idx entry atr df⟩ <;>
    simp only [stop_loss, take_profit] <;> ring

/-- C5 witness: entry 100, ATR 2 gives SL = 97 and TP = 106, and the TP_HIT
trade of `exDf5` exits at the TP level. -/
theorem sl_tp_levels_witness :
    stop_loss SignalType.BUY 100 2 = 100 - 3/2 * 2 ∧
    (simulate_trade SignalType.BUY 0 100 2 exDf5).exit_price =
      take_profit SignalType.BUY 100 2 :=
  ⟨(sl_tp_levels 100 2 0 exDf5).1,
    ((sl_tp_levels 100 2 0 exDf5).2.2.2.2 SignalType.BUY).1 (by with_unfolding_all decide)⟩

/-- C10: every TP_HIT trade with positive entry price has pnl_percent =
300·ATR/entry (BUY and SELL alike), is labeled WIN exactly when
300·ATR/entry > 0.5, and in particular is labeled LOSS when ATR ≤
entry/600. -/
theorem tp_hit_pnl (st : SignalType) (entry_idx : Nat) (entry atr : ℚ)
    (df : List Candle) (hentry : 0 < entry)
    (hreason : (simulate_trade st entry_idx entry atr df).exit_reason = ExitReason.TP_HIT) :
    (simulate_trade st entry_idx entry atr df).pnl_percent = 300 * atr / entry ∧
    ((simulate_trade st entry_idx entry atr df).outcome = Outcome.WIN ↔
      1/2 < 300 * atr / entry) ∧
    (atr ≤ entry / 600 → (simulate_trade st entry_idx entry atr df).outcome = Outcome.LOSS) := by
  have hexit := (exit_price_of_reason st entry_idx entry atr df).1 hreason
  have hne : entry ≠ 0 := ne_of_gt hentry
  have hpnl : (simulate_trade st entry_idx entry atr df).pnl_percent = 300 * atr / entry := by
    rw [simulate_pnl_eq st entry_idx entry atr df, hexit]
    cases st <;> simp only [pnlCalc, take_profit] <;> field_simp <;> ring
  refine ⟨hpnl, ?_, ?_⟩
  · rw [simulate_outcome_eq st entry_idx entry atr df, hpnl]
    by_cases h : 1/2 < 300 * atr / entry
    · rw [if_pos h]
      exact iff_of_true rfl h
    · rw [if_neg h]
      exact iff_of_false (fun hEq => Outcome.noConfusion hEq) h
  · intro hatr
    have hle : 300 * atr / entry ≤ 1/2 := by
      rw [div_le_iff₀ hentry]
      linarith
    rw [simulate_outcome_eq st entry_idx entry atr df, hpnl, if_neg (not_lt.mpr hle)]

/-- C10 witness: a BUY TP_HIT at entry 600, ATR 1 — exactly ATR =
entry/600 — has pnl_percent 300·1/600 = 0.5 and is labeled LOSS. -/
theorem tp_hit_pnl_witness :
    (simulate_trade SignalType.BUY 0 600 1 exDf10).pnl_percent = 300 * 1 / 600 ∧
    (simulate_trade SignalType.BUY 0 600 1 exDf10).outcome = Outcome.LOSS :=
  ⟨(tp_hit_pnl SignalType.BUY 0 600 1 exDf10 (by decide)
      (by with_unfolding_all decide)).1,
    (tp_hit_pnl SignalType.BUY 0 600 1 exDf10 (by decide)
      (by with_unfolding_all decide)).2.2 (by with_unfolding_all decide)⟩

/-! ## Helper lemmas about the signal generator -/

theorem mem_generate_signals {df : List IndicatorRow} {s : Signal}
    (hs : s ∈ generate_signals df) :
    ∃ i row st, df[i]? = some row ∧ 100 ≤ i ∧ rsiSignalType row = some st ∧
      50 ≤ confluenceOf row ∧ s = signalOfRow i row st (confluenceOf row) := by
  obtain ⟨i, hi, hsome⟩ := List.mem_filterMap.mp hs
  refine ⟨i, ?_⟩
  unfold sigGuard at hsome
  cases hrow : df[i]? with
  | none =>
      simp only [hrow] at hsome
      exact Option.noConfusion hsome
  | some row =>
      simp only [hrow] at hsome
      refine ⟨row, ?_⟩
      by_cases h100 : i < 100
      · rw [if_pos h100] at hsome
        cases hsome
      · rw [if_neg h100] at hsome
        by_cases hnan : (row.rsi.isNone || row.macd.isNone) = true
        · rw [if_pos hnan] at hsome
          cases hsome
        · rw [if_neg hnan] at hsome
          cases hst : rsiSignalType row with
          | none =>
              simp only [hst] at hsome
              exact Option.noConfusion hsome
          | some st =>
              simp only [hst] at hsome
              by_cases hconf : 50 ≤ confluenceOf row
              · rw [if_pos hconf] at hsome
                refine ⟨st, rfl, by omega, rfl, hconf, ?_⟩
                injection hsome with h2
                exact h2.symm
              · rw [if_neg hconf] at hsome
                cases hsome

theorem bbBonus_snapshot (s : Signal) (st : Option SignalType) :
    bbBonus (rowOfSnapshot s) st = 0 := by
  simp [bbBonus, rowOfSnapshot, oLT, oGT]

theorem confluence_snapshot (i : Nat) (row : IndicatorRow) (st : SignalType) (c : Nat) :
    confluenceOf (rowOfSnapshot (signalOfRow i row st c)) +
      bbBonus row (rsiSignalType row) = confluenceOf row := by
  have h1 : rsiSignalType (rowOfSnapshot (signalOfRow i row st c)) = rsiSignalType row := rfl
  have h2 : rsiBonus (rowOfSnapshot (signalOfRow i row st c)) = rsiBonus row := rfl
  have h3 : ∀ x, macdBonus (rowOfSnapshot (signalOfRow i row st c)) x = macdBonus row x :=
    fun _ => rfl
  have h4 : ∀ x, emaBonus (rowOfSnapshot (signalOfRow i row st c)) x = emaBonus row x :=
    fun _ => rfl
  have h5 : volBonus (rowOfSnapshot (signalOfRow i row st c)) = volBonus row := rfl
  simp only [confluenceOf, h1, h2, h3, h4, h5, bbBonus_snapshot]
  omega

/-! ## Claim theorems: signal generator -/

/-- C6: a Signal is emitted at a bar only when the bar's signal_type is set
by the RSI rule (the sole origin of BUY/SELL) and the cumulative confluence
is at least 50; every emitted Signal carries confluence ≥ 50 and a
direction reproduced by the RSI rule on its emitting row. -/
theorem signal_emission_guard (df : List IndicatorRow) (s : Signal)
    (hs : s ∈ generate_signals df) :
    50 ≤ s.confluence ∧
    ∃ row, df[s.index]? = some row ∧ rsiSignalType row = some s.signal_type := by
  obtain ⟨i, row, st, hrow, h100, hst, hconf, heq⟩ := mem_generate_signals hs
  subst heq
  exact ⟨hconf, ⟨row, hrow, hst⟩⟩

/-- C6 witness: the signal emitted at bar 100 of `exDfSig6` has confluence
50 and its BUY direction agrees with the RSI rule on its row. -/
theorem signal_emission_guard_witness :
    50 ≤ exSig6.confluence ∧
    ∃ row, exDfSig6[exSig6.index]? = some row ∧
      rsiSignalType row = some exSig6.signal_type :=
  signal_emission_guard exDfSig6 exSig6 (by with_unfolding_all decide)

/-- C7 counterexample: the Signal emitted at bar 100 of `exDfSig7` stores
confluence 55, of which 10 came from the Bollinger rule reading
`price_to_bb`; that column is not part of the stored snapshot, so
re-applying the scoring rules to the snapshot yields 45 ≠ 55. -/
theorem recompute_counterexample :
    exSig7 ∈ generate_signals exDfSig7 ∧
    recomputeConfluence exSig7 ≠ exSig7.confluence := by
  constructor <;> with_unfolding_all decide

/-- C7 amended: for every emitted Signal, re-applying the scoring rules to
the stored indicator snapshot reproduces the stored confluence minus the
Bollinger-position contribution (the snapshot omits `price_to_bb`, the
Bollinger rule's input): confluence = recompute + bbBonus of the emitting
row.  In particular recompute equals the stored confluence exactly when the
Bollinger rule contributed nothing. -/
theorem recompute_amended (df : List IndicatorRow) (s : Signal) (row : IndicatorRow)
    (hs : s ∈ generate_signals df) (hrow : df[s.index]? = some row) :
    s.confluence = recomputeConfluence s + bbBonus row (rsiSignalType row) := by
  obtain ⟨i, row2, st, hrow2, h100, hst, hconf, heq⟩ := mem_generate_signals hs
  subst heq
  have hrow3 : df[i]? = some row := hrow
  rw [hrow2] at hrow3
  injection hrow3 with h2
  subst h2
  exact (confluence_snapshot i row2 st (confluenceOf row2)).symm

/-- C7 amended witness: for the signal of `exDfSig7`, 55 = 45 + 10. -/
theorem recompute_amended_witness :
    exSig7.confluence = recomputeConfluence exSig7 +
      bbBonus row7 (rsiSignalType row7) :=
  recompute_amended exDfSig7 exSig7 row7 (by with_unfolding_all decide)
    (by with_unfolding_all decide)

/-! ## Helper lemmas about the RSI pipeline -/

theorem gainAt_nonneg (close : List ℚ) (i : Nat) : 0 ≤ gainAt close i := by
  unfold gainAt
  cases deltaAt close i with
  | none => exact le_refl 0
  | some d =>
      show (0 : ℚ) ≤ if 0 < d then d else 0
      split
      · linarith
      · exact le_refl 0

theorem lossAt_nonneg (close : List ℚ) (i : Nat) : 0 ≤ lossAt close i := by
  unfold lossAt
  cases deltaAt close i with
  | none => exact le_refl 0
  | some d =>
      show (0 : ℚ) ≤ if d < 0 then -d else 0
      split
      · linarith
      · exact le_refl 0

theorem avgGain_nonneg (close : List ℚ) (i : Nat) (g : ℚ)
    (h : avgGain close i = some g) : 0 ≤ g := by
  unfold avgGain at h
  by_cases h13 : 13 ≤ i
  · rw [if_pos h13] at h
    injection h with h2
    subst h2
    apply div_nonneg _ (by norm_num)
    apply List.sum_nonneg
    intro x hx
    obtain ⟨k, _, rfl⟩ := List.mem_map.mp hx
    exact gainAt_nonneg close (i - 13 + k)
  · rw [if_neg h13] at h
    cases h

theorem avgLoss_nonneg (close : List ℚ) (i : Nat) (l : ℚ)
    (h : avgLoss close i = some l) : 0 ≤ l := by
  unfold avgLoss at h
  by_cases h13 : 13 ≤ i
  · rw [if_pos h13] at h
    injection h with h2
    subst h2
    apply div_nonneg _ (by norm_num)
    apply List.sum_nonneg
    intro x hx
    obtain ⟨k, _, rfl⟩ := List.mem_map.mp hx
    exact lossAt_nonneg close (i - 13 + k)
  · rw [if_neg h13] at h
    cases h

theorem rsAt_val_nonneg (close : List ℚ) (i : Nat) (r : ℚ)
    (h : rsAt close i = FVal.val r) : 0 ≤ r := by
  unfold rsAt at h
  cases hg : avgGain close i with
  | none =>
      simp only [hg] at h
      exact FVal.noConfusion h
  | some g =>
      cases hl : avgLoss close i with
      | none =>
          simp only [hg, hl] at h
          exact FVal.noConfusion h
      | some l =>
          simp only [hg, hl] at h
          split at h
          · split at h
            · exact FVal.noConfusion h
            · split at h
              · exact FVal.noConfusion h
              · exact FVal.noConfusion h
          · injection h with h2
            subst h2
            exact div_nonneg (avgGain_nonneg close i g hg) (avgLoss_nonneg close i l hl)

theorem rsiAt_val_range (close : List ℚ) (i : Nat) (q : ℚ)
    (h : rsiAt close i = FVal.val q) : 0 ≤ q ∧ q ≤ 100 := by
  unfold rsiAt at h
  cases hrs : rsAt close i with
  | nan =>
      simp only [hrs] at h
      exact FVal.noConfusion h
  | inf =>
      simp only [hrs] at h
      injection h with h2
      subst h2
      norm_num
  | neginf =>
      simp only [hrs] at h
      injection h with h2
      subst h2
      norm_num
  | val r =>
      simp only [hrs] at h
      split at h
      · exact FVal.noConfusion h
      · injection h with h2
        subst h2
        have hr : 0 ≤ r := rsAt_val_nonneg close i r hrs
        have hpos : 0 < 1 + r := by linarith
        have h1 : 0 < 100 / (1 + r) := div_pos (by norm_num) hpos
        have h2 : 100 / (1 + r) ≤ 100 := by
          rw [div_le_iff₀ hpos]
          nlinarith
        constructor <;> linarith

theorem rsiAt_nan_of_lt (close : List ℚ) (i : Nat) (h : i < 13) :
    rsiAt close i = FVal.nan := by
  have h13 : ¬ 13 ≤ i := by omega
  unfold rsiAt rsAt avgGain avgLoss
  rw [if_neg h13, if_neg h13]

theorem rsiAt_of_loss_zero (close : List ℚ) (i : Nat) (g : ℚ)
    (hl : avgLoss close i = some 0) (hg : avgGain close i = some g) :
    (0 < g → rsiAt close i = FVal.val 100) ∧ (g = 0 → rsiAt close i = FVal.nan) := by
  constructor
  · intro h0
    have hrs : rsAt close i = FVal.inf := by
      unfold rsAt
      simp only [hg, hl]
      simp [h0]
    unfold rsiAt
    rw [hrs]
  · intro h0
    subst h0
    have hrs : rsAt close i = FVal.nan := by
      unfold rsAt
      simp only [hg, hl]
      simp
    unfold rsiAt
    rw [hrs]

/-! ## Claim theorems: RSI -/

/-- C8 counterexample: on the strictly increasing 14-bar close series
`exCl8`, the RSI at bar index 13 — one of "the first 14 bars" — is the
defined value 100 even though the trailing 14-bar average loss is zero,
refuting both "undefined for the first 14 bars" and "undefined whenever the
trailing 14-bar average loss is zero".  (Pandas `where` turns row 0's NaN
delta into a 0 gain/loss, so the rolling windows fill one bar early, and
`gain/loss = inf` for zero loss gives `100 - 100/(1+inf) = 100`.) -/
theorem rsi_counterexample :
    exCl8.length = 14 ∧
    avgLoss exCl8 13 = some 0 ∧
    rsiAt exCl8 13 = FVal.val 100 := by
  refine ⟨by decide, ?_, ?_⟩ <;> with_unfolding_all decide

/-- C8 amended: whenever the RSI value is defined it lies in [0, 100]; RSI
is undefined (NaN) for the first 13 bars; and when the trailing average
loss is zero, RSI is the defined value 100 if the average gain is positive
and is undefined (NaN) if the average gain is also zero.  The computation
is a total function and never raises. -/
theorem rsi_amended :
    (∀ close i q, rsiAt close i = FVal.val q → 0 ≤ q ∧ q ≤ 100) ∧
    (∀ close i, i < 13 → rsiAt close i = FVal.nan) ∧
    (∀ close i g, avgLoss close i = some 0 → avgGain close i = some g →
      (0 < g → rsiAt close i = FVal.val 100) ∧ (g = 0 → rsiAt close i = FVal.nan)) :=
  ⟨rsiAt_val_range, rsiAt_nan_of_lt,
    fun close i g hl hg => rsiAt_of_loss_zero close i g hl hg⟩

/-- C8 witness: on `exCl8` the RSI at bar 13 is 100 (within [0,100], with
zero average loss and positive average gain) and the RSI at bar 5 is NaN. -/
theorem rsi_amended_witness :
    (0 ≤ (100 : ℚ) ∧ (100 : ℚ) ≤ 100) ∧
    rsiAt exCl8 5 = FVal.nan ∧
    rsiAt exCl8 13 = FVal.val 100 :=
  ⟨rsi_amended.1 exCl8 13 100 (by with_unfolding_all decide),
    rsi_amended.2.1 exCl8 5 (by omega),
    (rsi_amended.2.2 exCl8 13 (13/14) (by with_unfolding_all decide)
      (by with_unfolding_all decide)).1 (by with_unfolding_all decide)⟩

/-! ## Claim theorems: dataset aggregator -/

/-- C9: a failing instrument is skipped without affecting the processing of
the remaining instruments — removing it from the batch leaves the result
unchanged — and when every instrument fails the aggregation fails with the
"No training data generated!" error. -/
theorem aggregator_error_isolation :
    (∀ (process : String → Except String (List TradeResult)) (coins1 : List String)
        (coin : String) (coins2 : List String) (e : String),
      process coin = Except.error e →
      generate_dataset process (coins1 ++ coin :: coins2) =
        generate_dataset process (coins1 ++ coins2)) ∧
    (∀ (process : String → Except String (List TradeResult)) (coins : List String),
      (∀ c ∈ coins, ∃ e, process c = Except.error e) →
      generate_dataset process coins = Except.error ("No training data generated!")) := by
  constructor
  · intro process coins1 coin coins2 e he
    unfold generate_dataset
    simp only [List.filterMap_append, List.filterMap_cons, he]
  · intro process coins h
    unfold generate_dataset
    have hnil : (coins.filterMap fun coin =>
        match process coin with
        | Except.ok trades => some (trades.map fun t => (coin, t))
        | Except.error _ => none) = [] := by
      rw [List.filterMap_eq_nil_iff]
      intro c hc
      obtain ⟨e, he⟩ := h c hc
      simp [he]
    rw [hnil]
    rfl

/-- C9 witness: with instruments [A, B, C] where exactly B fails, the
output equals that of [A, C]; with every instrument failing, the aggregator
fails with the "No training data generated!" error. -/
theorem aggregator_error_isolation_witness :
    generate_dataset exProcess (["A"] ++ "B" :: ["C"]) =
      generate_dataset exProcess (["A"] ++ ["C"]) ∧
    generate_dataset exProcessFail ["A", "B"] =
      Except.error ("No training data generated!") :=
  ⟨aggregator_error_isolation.1 exProcess ["A"] "B" ["C"] "fetch failed"
      (by with_unfolding_all rfl),
    aggregator_error_isolation.2 exProcessFail ["A", "B"]
      (fun c _ => ⟨"fetch failed", rfl⟩)⟩
